import Mathlib

/-!
Shallow embedding of the Sudojo API hint-access and gamification subsystem.

The definitions below translate, statement by statement, the TypeScript
source of `src/routes/solver.ts` (solver proxy, hint gate, hint-usage
tracker) and `src/services/access.ts` (daily access limits).  Database
tables are modelled as lists of rows carried in an explicit `DB` state;
the external solver is an oracle (`FetchOutcome`) describing what a fetch
of the solver service would produce; a thrown JavaScript error is an
`Except.error`.  The `hintAccess.ts` middleware is absent from the
repository snapshot, so the access-tier resolver and the
`getRequiredEntitlement` helper are modelled from the specification text
(each such definition says so in its doc comment).
-/

namespace Sudojo

/-! ### Database rows (drizzle schema as used by `solver.ts`) -/

/-- One row of the `gameSessions` table, with the columns `trackHintUsage`
reads or writes (`userId`, `board`, `level`, `puzzleType`, `puzzleId`,
`hintUsed`, `hintsCount`). -/
structure GameSession where
  userId : String
  board : String
  level : Nat
  puzzleType : String
  puzzleId : String
  hintUsed : Bool
  hintsCount : Nat
  deriving Repr, DecidableEq

/-- One row of the `userStats` table (columns used by the tracker). -/
structure UserStatsRow where
  userId : String
  totalPoints : Nat
  updatedAt : Nat
  deriving Repr, DecidableEq

/-- The `metadata` JSON recorded with a hint transaction. -/
structure TxMetadata where
  techniqueLevel : Nat
  puzzleLevel : Nat
  puzzleType : String
  puzzleId : String
  deriving Repr, DecidableEq

/-- One row of the `pointTransactions` table. -/
structure PointTransaction where
  userId : String
  points : Nat
  transactionType : String
  metadata : TxMetadata
  deriving Repr, DecidableEq

/-- The relational store as seen by `trackHintUsage`. -/
structure DB where
  gameSessions : List GameSession
  userStats : List UserStatsRow
  pointTransactions : List PointTransaction
  deriving Repr, DecidableEq

/-! ### Hint-usage tracker (`trackHintUsage` in `solver.ts`) -/

/-- Return value of `trackHintUsage`. -/
structure TrackResult where
  tracked : Bool
  hintPoints : Nat
  deriving Repr, DecidableEq

/-- The individual database operations performed by `trackHintUsage`, in
source order; a failure oracle chooses which of them throw. -/
inductive DbStep where
  | selSessions
  | updSession
  | selStats
  | updStats
  | insStats
  | insTx
  deriving Repr, DecidableEq

/-- Failure oracle under which no database operation throws. -/
def noFail : DbStep → Bool := fun _ => false

/-- The `select from gameSessions where userId = userId` query. -/
def sessionsFor (db : DB) (userId : String) : List GameSession :=
  db.gameSessions.filter (fun s => decide (s.userId = userId))

/-- The `select from userStats where userId = userId` query. -/
def statsFor (db : DB) (userId : String) : List UserStatsRow :=
  db.userStats.filter (fun s => decide (s.userId = userId))

/-- The `update gameSessions set hintUsed = true, hintsCount = n where
userId = userId` statement (SQL updates every matching row). -/
def updateSessions (rows : List GameSession) (userId : String) (newCount : Nat) :
    List GameSession :=
  rows.map (fun s =>
    if s.userId = userId then { s with hintUsed := true, hintsCount := newCount } else s)

/-- The `update userStats set totalPoints = t, updatedAt = now where
userId = userId` statement. -/
def updateStats (rows : List UserStatsRow) (userId : String) (newTotal : Nat) (now : Nat) :
    List UserStatsRow :=
  rows.map (fun s =>
    if s.userId = userId then { s with totalPoints := newTotal, updatedAt := now } else s)

/-- The `pointTransactions` row inserted for a tracked hint. -/
def hintTx (userId : String) (hintPoints : Nat) (techniqueLevel : Nat)
    (session : GameSession) : PointTransaction :=
  { userId := userId
    points := hintPoints
    transactionType := "hint_used"
    metadata :=
      { techniqueLevel := techniqueLevel
        puzzleLevel := session.level
        puzzleType := session.puzzleType
        puzzleId := session.puzzleId } }

/-- Body of `trackHintUsage` inside its `try` block.  Each database
operation consults the failure oracle first; a throw carries the store as
mutated so far (earlier writes are not rolled back). -/
def trackHintUsageAux (fail : DbStep → Bool) (now : Nat) (userId originalBoard : String)
    (techniqueLevel : Nat) (db : DB) : Except DB (TrackResult × DB) :=
  if fail .selSessions then .error db else
  match sessionsFor db userId with
  | [] => .ok (⟨false, 0⟩, db)
  | session :: _ =>
    if session.board ≠ originalBoard then .ok (⟨false, 0⟩, db)
    else
      -- Calculate hint points: 2 × technique_level
      let hintPoints := 2 * techniqueLevel
      if fail .updSession then .error db else
      let db1 : DB :=
        { db with gameSessions := updateSessions db.gameSessions userId (session.hintsCount + 1) }
      if fail .selStats then .error db1 else
      match statsFor db1 userId with
      | existing :: _ =>
        if fail .updStats then .error db1 else
        let db2 : DB :=
          { db1 with userStats := updateStats db1.userStats userId (existing.totalPoints + hintPoints) now }
        if fail .insTx then .error db2 else
        .ok (⟨true, hintPoints⟩,
          { db2 with pointTransactions :=
              db2.pointTransactions ++ [hintTx userId hintPoints techniqueLevel session] })
      | [] =>
        if fail .insStats then .error db1 else
        let db2 : DB :=
          { db1 with userStats := db1.userStats ++ [⟨userId, hintPoints, now⟩] }
        if fail .insTx then .error db2 else
        .ok (⟨true, hintPoints⟩,
          { db2 with pointTransactions :=
              db2.pointTransactions ++ [hintTx userId hintPoints techniqueLevel session] })

/-- The full `trackHintUsage`: the surrounding `catch` maps any thrown
error to `{ tracked := false, hintPoints := 0 }`. -/
def trackHintUsage (fail : DbStep → Bool) (now : Nat) (userId originalBoard : String)
    (techniqueLevel : Nat) (db : DB) : TrackResult × DB :=
  match trackHintUsageAux fail now userId originalBoard techniqueLevel db with
  | .ok out => out
  | .error db2 => (⟨false, 0⟩, db2)

/-! ### Solver proxy (`proxySolverRequest`, `callSolver`) -/

/-- The `error` member of a solver service response. -/
structure SolverError where
  code : String
  message : String
  deriving Repr, DecidableEq

/-- The JSON envelope returned by the external solver service. -/
structure SolverResponse (T : Type) where
  success : Bool
  error : Option SolverError
  data : Option T
  deriving Repr, DecidableEq

/-- The `hints` member of solve data (only its `level` is consulted). -/
structure HintsObj where
  level : Nat
  deriving Repr, DecidableEq

/-- The solver's solve payload: `hints` as consulted by the handler, with
the remaining members abstracted into `board`. -/
structure SolveData where
  board : String
  hints : Option HintsObj
  deriving Repr, DecidableEq

/-- What one fetch of the solver service would produce: a parsed body, a
non-2xx HTTP status, an abort by the 120-second timeout, or a network
error. -/
inductive FetchOutcome (T : Type) where
  | ok (r : SolverResponse T)
  | httpStatus (code : Nat)
  | timeout
  | netError (message : String)
  deriving Repr, DecidableEq

/-- The `proxySolverRequest` function: a non-2xx status throws
`Solver service error: <status>`, an abort throws the timeout message,
any other fetch error is rethrown; otherwise the parsed body is
returned. -/
def proxySolverRequest {T : Type} (o : FetchOutcome T) : Except String (SolverResponse T) :=
  match o with
  | .ok r => .ok r
  | .httpStatus code => .error ("Solver service error: " ++ toString code)
  | .timeout => .error "Solver service timeout after 120s"
  | .netError msg => .error msg

/-! ### Hint access context and gate -/

/-- The access decision stored by the hint-access middleware.
`maxHintLevel := none` models a JavaScript `Infinity` limit (unbounded
access): no finite hint level compares greater than it. -/
structure HintAccessContext where
  maxHintLevel : Option Nat
  userState : String
  deriving Repr, DecidableEq

/-- The comparison `hintLevel > hintAccess.maxHintLevel` of `solver.ts`
(against `Infinity` it is always false). -/
def hintExceeds (hintLevel : Nat) (lim : Option Nat) : Bool :=
  match lim with
  | none => false
  | some m => decide (hintLevel > m)

/-- Modelled from the spec: `getRequiredEntitlement` is exported by
`src/middleware/hintAccess.ts`, which is absent from the repository
snapshot.  Per spec §4.2, a level at most 3 requires no entitlement,
levels 4 and 5 require `blue_belt`, and levels above 5 require
`red_belt`. -/
def getRequiredEntitlement (hintLevel : Nat) : Option String :=
  if hintLevel ≤ 3 then none
  else if hintLevel ≤ 5 then some "blue_belt"
  else some "red_belt"

/-- Modelled from the spec: the access-tier resolver of the absent
`src/middleware/hintAccess.ts`, per spec §4.1.  First match wins: a site
administrator gets an unbounded level, then the `red_belt` entitlement
gets unbounded, `blue_belt` gets 5, an authenticated caller without an
elevated entitlement gets 3, and an anonymous caller gets 3.  A failed
external entitlement lookup degrades to the rule-4/5 default of 3. -/
def resolveHintAccess (isAdmin authenticated : Bool)
    (lookup : Except Unit (List String)) : HintAccessContext :=
  if isAdmin then ⟨none, "admin"⟩
  else
    match lookup with
    | .error _ => if authenticated then ⟨some 3, "free"⟩ else ⟨some 3, "anonymous"⟩
    | .ok ents =>
      if ents.contains "red_belt" then ⟨none, "red_belt"⟩
      else if ents.contains "blue_belt" then ⟨some 5, "blue_belt"⟩
      else if authenticated then ⟨some 3, "free"⟩
      else ⟨some 3, "anonymous"⟩

/-! ### Solve request handler (`handleSolveRequest`) -/

/-- The structured 402 denial body built in the gate branch. -/
structure DeniedError where
  code : String
  message : String
  hintLevel : Nat
  requiredEntitlement : Option String
  userState : String
  deriving Repr, DecidableEq

/-- The `{points, techniqueLevel}` augmentation attached on a tracked
hint. -/
structure PointsEarned where
  points : Nat
  techniqueLevel : Nat
  deriving Repr, DecidableEq

/-- The JSON responses `handleSolveRequest` can produce: an
`errorResponse` with a status, the structured denial with a status, or a
`successResponse` around the solve data with the optional points
augmentation. -/
inductive SolveResponse where
  | jsonError (message : String) (status : Nat)
  | jsonDenied (e : DeniedError) (status : Nat)
  | jsonOk (data : SolveData) (points : Option PointsEarned)
  deriving Repr, DecidableEq

/-- Whether a response is the structured hint denial. -/
def SolveResponse.isDenied : SolveResponse → Bool
  | .jsonDenied _ _ => true
  | _ => false

/-- Rendering of a limit inside the denial message (`Infinity` for an
unbounded limit, as JavaScript string interpolation would print it). -/
def limitText (lim : Option Nat) : String :=
  match lim with
  | none => "Infinity"
  | some m => toString m

/-- The interpolated denial message of the 402 branch. -/
def deniedMessage (hintLevel : Nat) (lim : Option Nat) : String :=
  "This hint requires a higher subscription tier. Hint level: " ++ toString hintLevel ++
    ", your max level: " ++ limitText lim

/-- The 400 message: `code: message` when the solver reported an error,
otherwise the fixed fallback. -/
def solverErrorMessage (err : Option SolverError) : String :=
  match err with
  | some e => e.code ++ ": " ++ e.message
  | none => "Solver error"

/-- `result.data.hints?.level ?? 0` (the value checked by the gate). -/
def hintLevelOf (d : SolveData) : Nat :=
  match d.hints with
  | some h => h.level
  | none => 0

/-- `result.data.hints?.level ?? 1` (the value passed to the tracker). -/
def techniqueLevelOf (d : SolveData) : Nat :=
  match d.hints with
  | some h => h.level
  | none => 1

/-- The retry condition of the technique-filtered call:
`!result.success || !result.data || result.data.hints?.level === 0`
(an absent `hints` member compares unequal to 0). -/
def needsFallback (r : SolverResponse SolveData) : Bool :=
  !r.success || r.data.isNone ||
    (match r.data with
     | some d =>
       match d.hints with
       | some h => decide (h.level = 0)
       | none => false
     | none => false)

/-- Tail of the success path: run the tracker when a verified user is
present and attach the points augmentation only when tracking
succeeded. -/
def trackAndRespond (d : SolveData) (firebaseUser : Option String)
    (fail : DbStep → Bool) (now : Nat) (db : DB) (original : String) :
    SolveResponse × DB :=
  let techniqueLevel := techniqueLevelOf d
  match firebaseUser with
  | some uid =>
    let out := trackHintUsage fail now uid original techniqueLevel db
    if out.1.tracked then
      (.jsonOk d (some ⟨out.1.hintPoints, techniqueLevel⟩), out.2)
    else
      (.jsonOk d none, out.2)
  | none => (.jsonOk d none, db)

/-- The handler from the chosen solver result onward: the 400 branch on
an unsuccessful or data-less result, then the hint gate, then tracking
and the success response. -/
def finishSolve (r : SolverResponse SolveData) (hintAccess : Option HintAccessContext)
    (firebaseUser : Option String) (fail : DbStep → Bool) (now : Nat) (db : DB)
    (original : String) : SolveResponse × DB :=
  match r.success, r.data with
  | true, some d =>
    let hintLevel := hintLevelOf d
    match hintAccess with
    | some ha =>
      if hintExceeds hintLevel ha.maxHintLevel then
        (.jsonDenied
          ⟨"HINT_ACCESS_DENIED", deniedMessage hintLevel ha.maxHintLevel, hintLevel,
            getRequiredEntitlement hintLevel, ha.userState⟩ 402, db)
      else trackAndRespond d firebaseUser fail now db original
    | none => trackAndRespond d firebaseUser fail now db original
  | _, _ => (.jsonError (solverErrorMessage r.error) 400, db)

/-- Query parameters of a solve request (each `none` when absent). -/
structure RequestQuery where
  original : Option String
  user : Option String
  autopencilmarks : Option String
  pencilmarks : Option String
  techniques : Option String
  deriving Repr, DecidableEq

/-- JavaScript truthiness of an optional string (`if (techniques)`):
present and non-empty. -/
def truthyString (s : Option String) : Bool :=
  match s with
  | none => false
  | some t => !t.isEmpty

/-- Which solver calls the handler performed, in order. -/
inductive SolverCall where
  | filtered
  | unfiltered
  deriving Repr, DecidableEq

/-- The whole `handleSolveRequest` body: the filtered call and single
unfiltered fallback, the surrounding `catch` mapping any thrown solver
error to a 503, and the gate/tracking tail.  The two `FetchOutcome`
arguments say what the filtered and the unfiltered fetch would produce;
the returned trace lists the calls actually made. -/
def handleSolveRequest (q : RequestQuery)
    (filteredOutcome unfilteredOutcome : FetchOutcome SolveData)
    (hintAccess : Option HintAccessContext) (firebaseUser : Option String)
    (fail : DbStep → Bool) (now : Nat) (db : DB) :
    SolveResponse × DB × List SolverCall :=
  let original := q.original.getD ""
  if truthyString q.techniques then
    match proxySolverRequest filteredOutcome with
    | .error _ => (.jsonError "Solver service unavailable" 503, db, [.filtered])
    | .ok r1 =>
      if needsFallback r1 then
        match proxySolverRequest unfilteredOutcome with
        | .error _ => (.jsonError "Solver service unavailable" 503, db, [.filtered, .unfiltered])
        | .ok r2 =>
          let out := finishSolve r2 hintAccess firebaseUser fail now db original
          (out.1, out.2, [.filtered, .unfiltered])
      else
        let out := finishSolve r1 hintAccess firebaseUser fail now db original
        (out.1, out.2, [.filtered])
  else
    match proxySolverRequest unfilteredOutcome with
    | .error _ => (.jsonError "Solver service unavailable" 503, db, [.unfiltered])
    | .ok r =>
      let out := finishSolve r hintAccess firebaseUser fail now db original
      (out.1, out.2, [.unfiltered])

/-! ### Daily access limits (`src/services/access.ts`) -/

/-- One row of the `accessLogs` table. -/
structure AccessLog where
  user_id : String
  endpoint : String
  access_date : String
  deriving Repr, DecidableEq

/-- The `DAILY_LIMITS` record (a lookup returns `none` for a key the
record does not contain). -/
def DAILY_LIMITS (endpoint : String) : Option Nat :=
  if endpoint = "boards" then some 2
  else if endpoint = "dailies" then some 2
  else if endpoint = "challenges" then some 2
  else if endpoint = "solve" then some 10
  else none

/-- Default daily limit for endpoints not explicitly configured. -/
def DEFAULT_DAILY_LIMIT : Nat := 2

/-- `DAILY_LIMITS[endpoint] ?? DEFAULT_DAILY_LIMIT`. -/
def getDailyLimit (endpoint : String) : Nat :=
  (DAILY_LIMITS endpoint).getD DEFAULT_DAILY_LIMIT

/-- The access decision returned by `checkAndRecordAccess`. -/
structure AccessDecision where
  granted : Bool
  remaining : Nat
  deriving Repr, DecidableEq

/-- The counting query of `getAccessCountToday`. -/
def getAccessCountToday (logs : List AccessLog) (userId endpoint today : String) : Nat :=
  (logs.filter (fun l =>
    decide (l.user_id = userId) && decide (l.endpoint = endpoint) &&
      decide (l.access_date = today))).length

/-- The insert of `recordAccess`. -/
def recordAccess (logs : List AccessLog) (userId endpoint today : String) : List AccessLog :=
  logs ++ [⟨userId, endpoint, today⟩]

/-- `checkAndRecordAccess`: deny once today's count reaches the limit,
otherwise record the access and report the remaining allowance. -/
def checkAndRecordAccess (logs : List AccessLog) (userId endpoint today : String) :
    AccessDecision × List AccessLog :=
  let limit := getDailyLimit endpoint
  let accessCount := getAccessCountToday logs userId endpoint today
  if accessCount ≥ limit then (⟨false, 0⟩, logs)
  else (⟨true, limit - accessCount - 1⟩, recordAccess logs userId endpoint today)

/-! ### Helper definitions and lemmas -/

/-- The `totalPoints` of the user's stats row (0 when no row exists). -/
def totalPointsOf (rows : List UserStatsRow) (uid : String) : Nat :=
  match rows.filter (fun s => decide (s.userId = uid)) with
  | st :: _ => st.totalPoints
  | [] => 0

lemma filter_updateStats (l : List UserStatsRow) (uid : String) (t n : Nat) :
    (updateStats l uid t n).filter (fun s => decide (s.userId = uid)) =
      (l.filter (fun s => decide (s.userId = uid))).map
        (fun s => { s with totalPoints := t, updatedAt := n }) := by
  induction l with
  | nil => rfl
  | cons head tail ih =>
    by_cases h : head.userId = uid <;>
      simp [updateStats, List.filter_cons, h] at ih ⊢ <;> exact ih

lemma trackAndRespond_isOk (d : SolveData) (fu : Option String) (fail : DbStep → Bool)
    (now : Nat) (db : DB) (original : String) :
    ∃ pts, (trackAndRespond d fu fail now db original).1 = .jsonOk d pts := by
  unfold trackAndRespond
  cases fu with
  | none => exact ⟨none, rfl⟩
  | some uid =>
    by_cases ht : (trackHintUsage fail now uid original (techniqueLevelOf d) db).1.tracked
    · refine ⟨some ⟨(trackHintUsage fail now uid original (techniqueLevelOf d) db).1.hintPoints,
        techniqueLevelOf d⟩, ?_⟩
      simp [ht]
    · exact ⟨none, by simp [ht]⟩

lemma trackAndRespond_none_db (d : SolveData) (fail : DbStep → Bool)
    (now : Nat) (db : DB) (original : String) :
    (trackAndRespond d none fail now db original).2 = db := rfl

lemma finishSolve_none_user_db (r : SolverResponse SolveData)
    (ha : Option HintAccessContext) (fail : DbStep → Bool) (now : Nat) (db : DB)
    (original : String) :
    (finishSolve r ha none fail now db original).2 = db := by
  obtain ⟨succ, err, dat⟩ := r
  cases succ <;> cases dat <;> cases ha <;>
    simp [finishSolve, trackAndRespond] <;> split <;> rfl

lemma finishSolve_none_not_denied (r : SolverResponse SolveData) (fu : Option String)
    (fail : DbStep → Bool) (now : Nat) (db : DB) (original : String) :
    (finishSolve r none fu fail now db original).1.isDenied = false := by
  obtain ⟨succ, err, dat⟩ := r
  cases succ with
  | false => cases dat <;> rfl
  | true =>
    cases dat with
    | none => rfl
    | some d =>
      have h : (finishSolve ⟨true, err, some d⟩ none fu fail now db original).1 =
          (trackAndRespond d fu fail now db original).1 := rfl
      obtain ⟨pts, hpts⟩ := trackAndRespond_isOk d fu fail now db original
      rw [h, hpts]
      rfl

/-! ### Claim theorems -/

/-- C1: a solve request that reaches the hint gate with an access decision
present is denied exactly when the resulting hint's level strictly exceeds
the decision's `maxHintLevel` (equality is allowed), every denial is the
402 response whose error carries code `HINT_ACCESS_DENIED` together with
the hint level, the required entitlement and the user state, and an
allowed hint is never answered with a denial (nor a denied one silently
degraded into a success). -/
theorem hint_gate_deny_iff (r : SolverResponse SolveData) (ctx : HintAccessContext)
    (fu : Option String) (fail : DbStep → Bool) (now : Nat) (db : DB) (original : String)
    (d : SolveData) (hs : r.success = true) (hd : r.data = some d) :
    (hintExceeds (hintLevelOf d) ctx.maxHintLevel = true →
      (finishSolve r (some ctx) fu fail now db original).1 =
        .jsonDenied
          ⟨"HINT_ACCESS_DENIED", deniedMessage (hintLevelOf d) ctx.maxHintLevel,
            hintLevelOf d, getRequiredEntitlement (hintLevelOf d), ctx.userState⟩ 402) ∧
    (hintExceeds (hintLevelOf d) ctx.maxHintLevel = false →
      ∀ e s, (finishSolve r (some ctx) fu fail now db original).1 ≠ .jsonDenied e s) := by
  constructor
  · intro h
    simp [finishSolve, hs, hd, h]
  · intro h e s
    simp only [finishSolve, hs, hd, h]
    obtain ⟨pts, hpts⟩ := trackAndRespond_isOk d fu fail now db original
    simp [h, hpts]

/-- C9: when the middleware stored no access decision (`hintAccess` is
absent from the context), the 402 denial branch is unreachable — for every
hint level, including levels above 5, the request is treated as allowed
and a successful solver result yields the success response. -/
theorem gate_fails_open (q : RequestQuery) (fo uo : FetchOutcome SolveData)
    (fu : Option String) (fail : DbStep → Bool) (now : Nat) (db : DB) :
    ((handleSolveRequest q fo uo none fu fail now db).1.isDenied = false) ∧
    (∀ (r : SolverResponse SolveData) (d : SolveData) (original : String),
      r.success = true → r.data = some d →
      ∃ pts, (finishSolve r none fu fail now db original).1 = .jsonOk d pts) := by
  constructor
  · by_cases htech : truthyString q.techniques = true
    · cases hf : proxySolverRequest fo with
      | error e => simp [handleSolveRequest, htech, hf, SolveResponse.isDenied]
      | ok r1 =>
        by_cases hfb : needsFallback r1 = true
        · cases hu : proxySolverRequest uo with
          | error e => simp [handleSolveRequest, htech, hf, hfb, hu, SolveResponse.isDenied]
          | ok r2 =>
            have hne := finishSolve_none_not_denied r2 fu fail now db (q.original.getD "")
            simp [handleSolveRequest, htech, hf, hfb, hu, hne]
        · have hne := finishSolve_none_not_denied r1 fu fail now db (q.original.getD "")
          simp [handleSolveRequest, htech, hf, hfb, hne]
    · cases hu : proxySolverRequest uo with
      | error e => simp [handleSolveRequest, htech, hu, SolveResponse.isDenied]
      | ok r2 =>
        have hne := finishSolve_none_not_denied r2 fu fail now db (q.original.getD "")
        simp [handleSolveRequest, htech, hu, hne]
  · intro r d original hs hd
    simp only [finishSolve, hs, hd]
    exact trackAndRespond_isOk d fu fail now db original

/-- C5: with a techniques filter, a filtered solver result that is
unsuccessful, has no data, or carries a level-0 hint triggers exactly one
retry against the solver with no filter, and the final response (and
store) come from the retried result; a filtered result that needs no
fallback is answered directly after the single filtered call, and with no
filter only the one unfiltered call is made. -/
theorem solve_fallback_retry (q : RequestQuery) (fo uo : FetchOutcome SolveData)
    (ha : Option HintAccessContext) (fu : Option String) (fail : DbStep → Bool)
    (now : Nat) (db : DB) :
    (truthyString q.techniques = false →
      (handleSolveRequest q fo uo ha fu fail now db).2.2 = [.unfiltered]) ∧
    (∀ r1, truthyString q.techniques = true → proxySolverRequest fo = .ok r1 →
      needsFallback r1 = true →
      (handleSolveRequest q fo uo ha fu fail now db).2.2 = [.filtered, .unfiltered] ∧
      (∀ e, proxySolverRequest uo = .error e →
        (handleSolveRequest q fo uo ha fu fail now db).1 =
          .jsonError "Solver service unavailable" 503) ∧
      (∀ r2, proxySolverRequest uo = .ok r2 →
        (handleSolveRequest q fo uo ha fu fail now db).1 =
          (finishSolve r2 ha fu fail now db (q.original.getD "")).1 ∧
        (handleSolveRequest q fo uo ha fu fail now db).2.1 =
          (finishSolve r2 ha fu fail now db (q.original.getD "")).2)) ∧
    (∀ r1, truthyString q.techniques = true → proxySolverRequest fo = .ok r1 →
      needsFallback r1 = false →
      (handleSolveRequest q fo uo ha fu fail now db).2.2 = [.filtered] ∧
      (handleSolveRequest q fo uo ha fu fail now db).1 =
        (finishSolve r1 ha fu fail now db (q.original.getD "")).1) := by
  refine ⟨?_, ?_, ?_⟩
  · intro htech
    simp [handleSolveRequest, htech]
    cases hu : proxySolverRequest uo <;> rfl
  · intro r1 htech hf hfb
    refine ⟨?_, ?_, ?_⟩
    · simp [handleSolveRequest, htech, hf, hfb]
      cases hu : proxySolverRequest uo <;> rfl
    · intro e hu
      simp [handleSolveRequest, htech, hf, hfb, hu]
    · intro r2 hu
      constructor <;> simp [handleSolveRequest, htech, hf, hfb, hu]
  · intro r1 htech hf hfb
    constructor <;> simp [handleSolveRequest, htech, hf, hfb]

/-- C7: the solve flow's failure taxonomy — a (possibly retried) solver
result that is unsuccessful or carries no data is answered with a 400
carrying the solver's error code and message; a solver call that throws
(on any of the three call sites) is answered with a 503
`Solver service unavailable`; and both a timeout abort and a non-2xx
status are throws, so a timed-out call is always treated as unavailable
rather than as a partial result. -/
theorem solve_failure_taxonomy :
    (∀ (r : SolverResponse SolveData) (ha : Option HintAccessContext) (fu : Option String)
        (fail : DbStep → Bool) (now : Nat) (db : DB) (original : String),
      r.success = false ∨ r.data = none →
      finishSolve r ha fu fail now db original =
        (.jsonError (solverErrorMessage r.error) 400, db)) ∧
    (∀ (q : RequestQuery) (fo uo : FetchOutcome SolveData) (ha : Option HintAccessContext)
        (fu : Option String) (fail : DbStep → Bool) (now : Nat) (db : DB) (e : String),
      truthyString q.techniques = true → proxySolverRequest fo = .error e →
      (handleSolveRequest q fo uo ha fu fail now db).1 =
        .jsonError "Solver service unavailable" 503) ∧
    (∀ (q : RequestQuery) (fo uo : FetchOutcome SolveData) (r1 : SolverResponse SolveData)
        (ha : Option HintAccessContext) (fu : Option String) (fail : DbStep → Bool)
        (now : Nat) (db : DB) (e : String),
      truthyString q.techniques = true → proxySolverRequest fo = .ok r1 →
      needsFallback r1 = true → proxySolverRequest uo = .error e →
      (handleSolveRequest q fo uo ha fu fail now db).1 =
        .jsonError "Solver service unavailable" 503) ∧
    (∀ (q : RequestQuery) (fo uo : FetchOutcome SolveData) (ha : Option HintAccessContext)
        (fu : Option String) (fail : DbStep → Bool) (now : Nat) (db : DB) (e : String),
      truthyString q.techniques = false → proxySolverRequest uo = .error e →
      (handleSolveRequest q fo uo ha fu fail now db).1 =
        .jsonError "Solver service unavailable" 503) ∧
    (proxySolverRequest (FetchOutcome.timeout : FetchOutcome SolveData) =
      .error "Solver service timeout after 120s") ∧
    (∀ code : Nat, proxySolverRequest (FetchOutcome.httpStatus code : FetchOutcome SolveData) =
      .error ("Solver service error: " ++ toString code)) := by
  refine ⟨?_, ?_, ?_, ?_, rfl, fun code => rfl⟩
  · intro r ha fu fail now db original h
    obtain ⟨succ, err, dat⟩ := r
    have hbad : succ = false ∨ dat = none := by
      rcases h with h | h
      · exact Or.inl h
      · exact Or.inr h
    rcases hbad with h | h <;> subst h
    · cases dat <;> rfl
    · cases succ <;> rfl
  · intro q fo uo ha fu fail now db e htech hf
    simp [handleSolveRequest, htech, hf]
  · intro q fo uo r1 ha fu fail now db e htech hf hfb hu
    simp [handleSolveRequest, htech, hf, hfb, hu]
  · intro q fo uo ha fu fail now db e htech hu
    simp [handleSolveRequest, htech, hu]

lemma trackHintUsage_matched (now : Nat) (uid board : String) (lvl : Nat) (db : DB)
    (session : GameSession) (rest : List GameSession)
    (hs : sessionsFor db uid = session :: rest) (hb : session.board = board) :
    trackHintUsage noFail now uid board lvl db =
      (⟨true, 2 * lvl⟩,
        { gameSessions := updateSessions db.gameSessions uid (session.hintsCount + 1)
          userStats :=
            match statsFor db uid with
            | existing :: _ =>
              updateStats db.userStats uid (existing.totalPoints + 2 * lvl) now
            | [] => db.userStats ++ [⟨uid, 2 * lvl, now⟩]
          pointTransactions :=
            db.pointTransactions ++ [hintTx uid (2 * lvl) lvl session] }) := by
  unfold trackHintUsage trackHintUsageAux
  simp only [noFail, Bool.false_eq_true, if_false, hs, hb, ne_eq, not_true_eq_false, statsFor]
  cases hst : db.userStats.filter (fun s => decide (s.userId = uid)) with
  | nil => simp [hst]
  | cons existing tail => simp [hst]

/-- C2 (amended): on every tracked (matched) hint, `trackHintUsage` awards
exactly `2 × techniqueLevel` points — so a tracked hint of level 0 awards
zero points, there is no `max(techniqueLevel, 1)` floor — and the awarded
amount is the same in the `UserStats.totalPoints` delta and in the
recorded `PointTransaction.points`. -/
theorem track_points_amount (now : Nat) (uid board : String) (lvl : Nat) (db : DB)
    (session : GameSession) (rest : List GameSession)
    (hs : sessionsFor db uid = session :: rest) (hb : session.board = board) :
    ((trackHintUsage noFail now uid board lvl db).1 = ⟨true, 2 * lvl⟩) ∧
    (totalPointsOf (trackHintUsage noFail now uid board lvl db).2.userStats uid =
      totalPointsOf db.userStats uid + 2 * lvl) ∧
    ((trackHintUsage noFail now uid board lvl db).2.pointTransactions =
      db.pointTransactions ++ [hintTx uid (2 * lvl) lvl session]) := by
  have key := trackHintUsage_matched now uid board lvl db session rest hs hb
  refine ⟨by rw [key], ?_, by rw [key]⟩
  rw [key]
  unfold totalPointsOf statsFor
  cases hst : db.userStats.filter (fun s => decide (s.userId = uid)) with
  | nil => simp [hst, List.filter_append]
  | cons existing tail => simp [hst, filter_updateStats]

/-- C2: counterexample — with an active session on board `B1`, a tracked
hint of technique level 0 returns `tracked = true` with `hintPoints = 0`,
while the claimed formula `2 × max(techniqueLevel, 1)` gives 2: a tracked
level-0 hint is scored as level 0, not level 1, and awards zero points. -/
theorem track_points_level0_cex :
    (trackHintUsage noFail 7 "u1" "B1" 0
        ⟨[⟨"u1", "B1", 4, "daily", "p1", false, 0⟩], [], []⟩).1.tracked = true ∧
    (trackHintUsage noFail 7 "u1" "B1" 0
        ⟨[⟨"u1", "B1", 4, "daily", "p1", false, 0⟩], [], []⟩).1.hintPoints = 0 ∧
    2 * max 0 1 ≠ 0 := by
  refine ⟨by decide, by decide, by decide⟩

/-- C3: `trackHintUsage` is a no-op returning `tracked = false` and
`hintPoints = 0`, with the store unchanged, whenever the user has no
session row or the first session's stored board differs from the board
the hint was requested against; and when no authenticated user is present
the handler never touches the store at all. -/
theorem track_noop_unmatched :
    (∀ (fail : DbStep → Bool) (now : Nat) (uid board : String) (lvl : Nat) (db : DB),
      sessionsFor db uid = [] →
      trackHintUsage fail now uid board lvl db = (⟨false, 0⟩, db)) ∧
    (∀ (fail : DbStep → Bool) (now : Nat) (uid board : String) (lvl : Nat) (db : DB)
        (session : GameSession) (rest : List GameSession),
      sessionsFor db uid = session :: rest → session.board ≠ board →
      trackHintUsage fail now uid board lvl db = (⟨false, 0⟩, db)) ∧
    (∀ (q : RequestQuery) (fo uo : FetchOutcome SolveData) (ha : Option HintAccessContext)
        (fail : DbStep → Bool) (now : Nat) (db : DB),
      (handleSolveRequest q fo uo ha none fail now db).2.1 = db) := by
  refine ⟨?_, ?_, ?_⟩
  · intro fail now uid board lvl db h
    by_cases hf : fail .selSessions = true
    · simp [trackHintUsage, trackHintUsageAux, hf]
    · simp [trackHintUsage, trackHintUsageAux, hf, h]
  · intro fail now uid board lvl db session rest h hb
    by_cases hf : fail .selSessions = true
    · simp [trackHintUsage, trackHintUsageAux, hf]
    · simp [trackHintUsage, trackHintUsageAux, hf, h, hb]
  · intro q fo uo ha fail now db
    by_cases htech : truthyString q.techniques = true
    · cases hf : proxySolverRequest fo with
      | error e => simp [handleSolveRequest, htech, hf]
      | ok r1 =>
        by_cases hfb : needsFallback r1 = true
        · cases hu : proxySolverRequest uo with
          | error e => simp [handleSolveRequest, htech, hf, hfb, hu]
          | ok r2 =>
            have hdb := finishSolve_none_user_db r2 ha fail now db (q.original.getD "")
            simp [handleSolveRequest, htech, hf, hfb, hu, hdb]
        · have hdb := finishSolve_none_user_db r1 ha fail now db (q.original.getD "")
          simp [handleSolveRequest, htech, hf, hfb, hdb]
    · cases hu : proxySolverRequest uo with
      | error e => simp [handleSolveRequest, htech, hu]
      | ok r2 =>
        have hdb := finishSolve_none_user_db r2 ha fail now db (q.original.getD "")
        simp [handleSolveRequest, htech, hu, hdb]

/-- C4: on a matched, tracked hint, `trackHintUsage` performs exactly the
source's state changes — the user's session rows get `hintUsed = true` and
`hintsCount` incremented from the matched session's count by exactly 1,
`UserStats` is upserted (adding the points and refreshing `updatedAt`
when a row exists, creating a row with `totalPoints = hintPoints`
otherwise), and exactly one `PointTransaction` row is appended with
`transactionType = "hint_used"`, the awarded points, and metadata carrying
the technique level and the session's level, puzzle type and puzzle
id. -/
theorem track_matched_effects (now : Nat) (uid board : String) (lvl : Nat) (db : DB)
    (session : GameSession) (rest : List GameSession)
    (hs : sessionsFor db uid = session :: rest) (hb : session.board = board) :
    (trackHintUsage noFail now uid board lvl db =
      (⟨true, 2 * lvl⟩,
        { gameSessions := updateSessions db.gameSessions uid (session.hintsCount + 1)
          userStats :=
            match statsFor db uid with
            | existing :: _ =>
              updateStats db.userStats uid (existing.totalPoints + 2 * lvl) now
            | [] => db.userStats ++ [⟨uid, 2 * lvl, now⟩]
          pointTransactions :=
            db.pointTransactions ++
              [{ userId := uid, points := 2 * lvl, transactionType := "hint_used",
                 metadata := ⟨lvl, session.level, session.puzzleType, session.puzzleId⟩ }] })) ∧
    (∀ s2 ∈ updateSessions db.gameSessions uid (session.hintsCount + 1),
      s2.userId = uid → s2.hintUsed = true ∧ s2.hintsCount = session.hintsCount + 1) := by
  refine ⟨trackHintUsage_matched now uid board lvl db session rest hs hb, ?_⟩
  intro s2 hmem huid
  unfold updateSessions at hmem
  obtain ⟨s, hsmem, hfs⟩ := List.mem_map.mp hmem
  by_cases hcase : s.userId = uid
  · rw [if_pos hcase] at hfs
    subst hfs
    exact ⟨rfl, rfl⟩
  · rw [if_neg hcase] at hfs
    subst hfs
    exact absurd huid hcase

/-- C6: any error thrown during the tracker's database steps is caught and
turned into `tracked = false, hintPoints = 0` instead of propagating;
tracking runs only when a verified user is present (otherwise the store is
untouched); and the `{points, techniqueLevel}` augmentation is attached to
the success response exactly when tracking succeeded. -/
theorem track_failure_swallowed :
    (∀ (fail : DbStep → Bool) (now : Nat) (uid board : String) (lvl : Nat) (db db2 : DB),
      trackHintUsageAux fail now uid board lvl db = .error db2 →
      trackHintUsage fail now uid board lvl db = (⟨false, 0⟩, db2)) ∧
    (∀ (d : SolveData) (fail : DbStep → Bool) (now : Nat) (db : DB) (original : String),
      trackAndRespond d none fail now db original = (.jsonOk d none, db)) ∧
    (∀ (d : SolveData) (uid : String) (fail : DbStep → Bool) (now : Nat) (db : DB)
        (original : String),
      ((trackHintUsage fail now uid original (techniqueLevelOf d) db).1.tracked = true →
        trackAndRespond d (some uid) fail now db original =
          (.jsonOk d
            (some ⟨(trackHintUsage fail now uid original (techniqueLevelOf d) db).1.hintPoints,
              techniqueLevelOf d⟩),
            (trackHintUsage fail now uid original (techniqueLevelOf d) db).2)) ∧
      ((trackHintUsage fail now uid original (techniqueLevelOf d) db).1.tracked = false →
        trackAndRespond d (some uid) fail now db original =
          (.jsonOk d none, (trackHintUsage fail now uid original (techniqueLevelOf d) db).2))) := by
  refine ⟨?_, fun d fail now db original => rfl, ?_⟩
  · intro fail now uid board lvl db db2 h
    simp [trackHintUsage, h]
  · intro d uid fail now db original
    constructor <;> intro ht <;> simp [trackAndRespond, ht]

/-- C8: the access-tier resolver is total and first-match-wins — a site
administrator and a `red_belt` holder get an unbounded level, a
`blue_belt` holder gets 5, an authenticated caller without an elevated
entitlement gets 3, an anonymous caller gets 3, a failed entitlement
lookup degrades to 3, and every decision carries one of exactly these
three limits. -/
theorem tier_resolver_total (isAdmin authenticated : Bool)
    (lookup : Except Unit (List String)) :
    (isAdmin = true → resolveHintAccess isAdmin authenticated lookup = ⟨none, "admin"⟩) ∧
    (∀ ents, isAdmin = false → lookup = .ok ents → ents.contains "red_belt" = true →
      resolveHintAccess isAdmin authenticated lookup = ⟨none, "red_belt"⟩) ∧
    (∀ ents, isAdmin = false → lookup = .ok ents → ents.contains "red_belt" = false →
      ents.contains "blue_belt" = true →
      resolveHintAccess isAdmin authenticated lookup = ⟨some 5, "blue_belt"⟩) ∧
    (∀ ents, isAdmin = false → lookup = .ok ents → ents.contains "red_belt" = false →
      ents.contains "blue_belt" = false → authenticated = true →
      resolveHintAccess isAdmin authenticated lookup = ⟨some 3, "free"⟩) ∧
    (∀ ents, isAdmin = false → lookup = .ok ents → ents.contains "red_belt" = false →
      ents.contains "blue_belt" = false → authenticated = false →
      resolveHintAccess isAdmin authenticated lookup = ⟨some 3, "anonymous"⟩) ∧
    (∀ u, isAdmin = false → lookup = .error u →
      (resolveHintAccess isAdmin authenticated lookup).maxHintLevel = some 3) ∧
    ((resolveHintAccess isAdmin authenticated lookup).maxHintLevel = none ∨
      (resolveHintAccess isAdmin authenticated lookup).maxHintLevel = some 5 ∨
      (resolveHintAccess isAdmin authenticated lookup).maxHintLevel = some 3) := by
  refine ⟨?_, ?_, ?_, ?_, ?_, ?_, ?_⟩
  · intro h
    simp [resolveHintAccess, h]
  · intro ents ha hl hr
    subst hl
    have hr2 : "red_belt" ∈ ents := by simpa using hr
    simp [resolveHintAccess, ha, hr2]
  · intro ents ha hl hr hbl
    subst hl
    have hr2 : "red_belt" ∉ ents := by simpa using hr
    have hbl2 : "blue_belt" ∈ ents := by simpa using hbl
    simp [resolveHintAccess, ha, hr2, hbl2]
  · intro ents ha hl hr hbl hauth
    subst hl
    have hr2 : "red_belt" ∉ ents := by simpa using hr
    have hbl2 : "blue_belt" ∉ ents := by simpa using hbl
    simp [resolveHintAccess, ha, hr2, hbl2, hauth]
  · intro ents ha hl hr hbl hauth
    subst hl
    have hr2 : "red_belt" ∉ ents := by simpa using hr
    have hbl2 : "blue_belt" ∉ ents := by simpa using hbl
    simp [resolveHintAccess, ha, hr2, hbl2, hauth]
  · intro u ha hl
    subst hl
    cases authenticated <;> simp [resolveHintAccess, ha]
  · unfold resolveHintAccess
    by_cases ha : isAdmin = true
    · simp [ha]
    · simp only [Bool.not_eq_true] at ha
      cases lookup with
      | error u => cases authenticated <;> simp [ha]
      | ok ents =>
        by_cases hr : "red_belt" ∈ ents
        · simp [ha, hr]
        · by_cases hbl : "blue_belt" ∈ ents
          · simp [ha, hr, hbl]
          · cases authenticated <;> simp [ha, hr, hbl]

/-- C10: `checkAndRecordAccess` grants access exactly when the recorded
count for the endpoint today is strictly below the endpoint's daily limit
(10 for `solve`, 2 for `boards`, `dailies` and `challenges`, 2 by
default); on a grant it appends exactly one access-log row and reports
`remaining = limit − count − 1`; on a denial it leaves the log unchanged
and returns `granted = false, remaining = 0`. -/
theorem daily_access_check (logs : List AccessLog) (uid ep today : String) :
    (((checkAndRecordAccess logs uid ep today).1.granted = true) ↔
      getAccessCountToday logs uid ep today < getDailyLimit ep) ∧
    (getAccessCountToday logs uid ep today < getDailyLimit ep →
      (checkAndRecordAccess logs uid ep today).1.remaining =
        getDailyLimit ep - getAccessCountToday logs uid ep today - 1 ∧
      (checkAndRecordAccess logs uid ep today).2 = logs ++ [⟨uid, ep, today⟩]) ∧
    (getDailyLimit ep ≤ getAccessCountToday logs uid ep today →
      (checkAndRecordAccess logs uid ep today).1 = ⟨false, 0⟩ ∧
      (checkAndRecordAccess logs uid ep today).2 = logs) ∧
    getDailyLimit "solve" = 10 ∧
    getDailyLimit "boards" = 2 ∧
    getDailyLimit "dailies" = 2 ∧
    getDailyLimit "challenges" = 2 ∧
    (ep ≠ "boards" → ep ≠ "dailies" → ep ≠ "challenges" → ep ≠ "solve" →
      getDailyLimit ep = 2) := by
  refine ⟨?_, ?_, ?_, rfl, rfl, rfl, rfl, ?_⟩
  · by_cases h : getAccessCountToday logs uid ep today ≥ getDailyLimit ep
    all_goals simp [checkAndRecordAccess, h]
    all_goals try omega
  · intro h
    have h2 : ¬ getAccessCountToday logs uid ep today ≥ getDailyLimit ep := by omega
    simp [checkAndRecordAccess, h2, recordAccess]
  · intro h
    have h2 : getAccessCountToday logs uid ep today ≥ getDailyLimit ep := h
    simp [checkAndRecordAccess, h2]
  · intro h1 h2 h3 h4
    simp [getDailyLimit, DAILY_LIMITS, h1, h2, h3, h4, DEFAULT_DAILY_LIMIT]

/-! ### Witnesses -/

/-- Witness for C1: a level-4 hint against a `maxHintLevel = 3` decision
is the structured 402 denial. -/
theorem hint_gate_deny_iff_witness :
    (finishSolve ⟨true, none, some ⟨"bd", some ⟨4⟩⟩⟩ (some ⟨some 3, "free"⟩) none noFail 0
        ⟨[], [], []⟩ "B1").1 =
      SolveResponse.jsonDenied
        ⟨"HINT_ACCESS_DENIED", deniedMessage 4 (some 3), 4, some "blue_belt", "free"⟩ 402 :=
  (hint_gate_deny_iff ⟨true, none, some ⟨"bd", some ⟨4⟩⟩⟩ ⟨some 3, "free"⟩ none noFail 0
    ⟨[], [], []⟩ "B1" ⟨"bd", some ⟨4⟩⟩ rfl rfl).1 rfl

/-- Witness for C2 (amended): a tracked level-3 hint awards exactly 6
points. -/
theorem track_points_amount_witness :
    (trackHintUsage noFail 7 "u1" "B1" 3
        ⟨[⟨"u1", "B1", 4, "daily", "p1", false, 0⟩], [], []⟩).1 = ⟨true, 6⟩ :=
  (track_points_amount 7 "u1" "B1" 3 ⟨[⟨"u1", "B1", 4, "daily", "p1", false, 0⟩], [], []⟩
    ⟨"u1", "B1", 4, "daily", "p1", false, 0⟩ [] rfl rfl).1

/-- Witness for C3: a user with no session, and a session on a different
board, are both no-ops with the store unchanged. -/
theorem track_noop_unmatched_witness :
    trackHintUsage noFail 0 "u2" "B1" 3 ⟨[⟨"u1", "B1", 4, "daily", "p1", false, 0⟩], [], []⟩ =
      (⟨false, 0⟩, ⟨[⟨"u1", "B1", 4, "daily", "p1", false, 0⟩], [], []⟩) ∧
    trackHintUsage noFail 0 "u1" "C1" 3 ⟨[⟨"u1", "B1", 4, "daily", "p1", false, 0⟩], [], []⟩ =
      (⟨false, 0⟩, ⟨[⟨"u1", "B1", 4, "daily", "p1", false, 0⟩], [], []⟩) :=
  ⟨track_noop_unmatched.1 noFail 0 "u2" "B1" 3 _ rfl,
   track_noop_unmatched.2.1 noFail 0 "u1" "C1" 3 _
     ⟨"u1", "B1", 4, "daily", "p1", false, 0⟩ [] rfl (by decide)⟩

/-- Witness for C4: the full store after a matched level-3 hint. -/
theorem track_matched_effects_witness :
    trackHintUsage noFail 7 "u1" "B1" 3 ⟨[⟨"u1", "B1", 4, "daily", "p1", false, 0⟩], [], []⟩ =
      (⟨true, 6⟩,
        ⟨[⟨"u1", "B1", 4, "daily", "p1", true, 1⟩], [⟨"u1", 6, 7⟩],
          [⟨"u1", 6, "hint_used", ⟨3, 4, "daily", "p1"⟩⟩]⟩) := by
  have h := (track_matched_effects 7 "u1" "B1" 3
      ⟨[⟨"u1", "B1", 4, "daily", "p1", false, 0⟩], [], []⟩
      ⟨"u1", "B1", 4, "daily", "p1", false, 0⟩ [] rfl rfl).1
  rw [h]
  decide

/-- Witness for C5: a filtered level-0 result triggers the single
unfiltered retry and the response comes from the retried result. -/
theorem solve_fallback_retry_witness :
    (handleSolveRequest ⟨some "B1", none, none, none, some "5"⟩
        (.ok ⟨true, none, some ⟨"bd", some ⟨0⟩⟩⟩) (.ok ⟨true, none, some ⟨"bd", some ⟨4⟩⟩⟩)
        none none noFail 0 ⟨[], [], []⟩).2.2 = [.filtered, .unfiltered] ∧
    (handleSolveRequest ⟨some "B1", none, none, none, some "5"⟩
        (.ok ⟨true, none, some ⟨"bd", some ⟨0⟩⟩⟩) (.ok ⟨true, none, some ⟨"bd", some ⟨4⟩⟩⟩)
        none none noFail 0 ⟨[], [], []⟩).1 =
      (finishSolve ⟨true, none, some ⟨"bd", some ⟨4⟩⟩⟩ none none noFail 0 ⟨[], [], []⟩
        "B1").1 := by
  have h := (solve_fallback_retry ⟨some "B1", none, none, none, some "5"⟩
      (.ok ⟨true, none, some ⟨"bd", some ⟨0⟩⟩⟩) (.ok ⟨true, none, some ⟨"bd", some ⟨4⟩⟩⟩)
      none none noFail 0 ⟨[], [], []⟩).2.1
    ⟨true, none, some ⟨"bd", some ⟨0⟩⟩⟩ rfl rfl rfl
  exact ⟨h.1, (h.2.2 ⟨true, none, some ⟨"bd", some ⟨4⟩⟩⟩ rfl).1⟩

/-- Witness for C6: with the transaction insert throwing, the tracker
reports `tracked = false, hintPoints = 0` while earlier writes stand. -/
theorem track_failure_swallowed_witness :
    trackHintUsage (fun s => decide (s = DbStep.insTx)) 7 "u1" "B1" 3
        ⟨[⟨"u1", "B1", 4, "daily", "p1", false, 0⟩], [], []⟩ =
      (⟨false, 0⟩, ⟨[⟨"u1", "B1", 4, "daily", "p1", true, 1⟩], [⟨"u1", 6, 7⟩], []⟩) :=
  track_failure_swallowed.1 (fun s => decide (s = DbStep.insTx)) 7 "u1" "B1" 3
    ⟨[⟨"u1", "B1", 4, "daily", "p1", false, 0⟩], [], []⟩
    ⟨[⟨"u1", "B1", 4, "daily", "p1", true, 1⟩], [⟨"u1", 6, 7⟩], []⟩ rfl

/-- Witness for C7: a timed-out unfiltered call is answered with the 503,
and an unsuccessful solver result with the 400 carrying its code and
message. -/
theorem solve_failure_taxonomy_witness :
    (handleSolveRequest ⟨some "B1", none, none, none, none⟩ FetchOutcome.timeout
        FetchOutcome.timeout none none noFail 0 ⟨[], [], []⟩).1 =
      .jsonError "Solver service unavailable" 503 ∧
    finishSolve ⟨false, some ⟨"INVALID", "bad puzzle"⟩, none⟩ none none noFail 0 ⟨[], [], []⟩
        "B1" = (.jsonError "INVALID: bad puzzle" 400, ⟨[], [], []⟩) :=
  ⟨solve_failure_taxonomy.2.2.2.1 ⟨some "B1", none, none, none, none⟩ FetchOutcome.timeout
      FetchOutcome.timeout none none noFail 0 ⟨[], [], []⟩
      "Solver service timeout after 120s" rfl rfl,
   solve_failure_taxonomy.1 ⟨false, some ⟨"INVALID", "bad puzzle"⟩, none⟩ none none noFail 0
     ⟨[], [], []⟩ "B1" (Or.inl rfl)⟩

/-- Witness for C8: a `blue_belt` holder resolves to limit 5, and a failed
lookup degrades an anonymous caller to limit 3. -/
theorem tier_resolver_total_witness :
    resolveHintAccess false true (.ok ["blue_belt"]) = ⟨some 5, "blue_belt"⟩ ∧
    (resolveHintAccess false false (.error ())).maxHintLevel = some 3 :=
  ⟨(tier_resolver_total false true (.ok ["blue_belt"])).2.2.1 ["blue_belt"] rfl rfl
      (by decide) (by decide),
   (tier_resolver_total false false (.error ())).2.2.2.2.2.1 () rfl rfl⟩

/-- Witness for C9: with no stored access decision, a level-9 hint is not
denied and the solver data is returned. -/
theorem gate_fails_open_witness :
    ((handleSolveRequest ⟨some "B1", none, none, none, none⟩
        (.ok ⟨true, none, some ⟨"bd", some ⟨9⟩⟩⟩) (.ok ⟨true, none, some ⟨"bd", some ⟨9⟩⟩⟩)
        none none noFail 0 ⟨[], [], []⟩).1.isDenied = false) ∧
    (∃ pts, (finishSolve ⟨true, none, some ⟨"bd", some ⟨9⟩⟩⟩ none none noFail 0 ⟨[], [], []⟩
        "B1").1 = .jsonOk ⟨"bd", some ⟨9⟩⟩ pts) :=
  ⟨(gate_fails_open ⟨some "B1", none, none, none, none⟩
      (.ok ⟨true, none, some ⟨"bd", some ⟨9⟩⟩⟩) (.ok ⟨true, none, some ⟨"bd", some ⟨9⟩⟩⟩)
      none noFail 0 ⟨[], [], []⟩).1,
   (gate_fails_open ⟨some "B1", none, none, none, none⟩
      (.ok ⟨true, none, some ⟨"bd", some ⟨9⟩⟩⟩) (.ok ⟨true, none, some ⟨"bd", some ⟨9⟩⟩⟩)
      none noFail 0 ⟨[], [], []⟩).2 ⟨true, none, some ⟨"bd", some ⟨9⟩⟩⟩ ⟨"bd", some ⟨9⟩⟩
      "B1" rfl rfl⟩

/-- Witness for C10: a first `solve` access is granted with 9 remaining
and appends one row; a third `boards` access is denied unchanged. -/
theorem daily_access_check_witness :
    (checkAndRecordAccess [] "u1" "solve" "2026-10-11").1.remaining = 9 ∧
    (checkAndRecordAccess [] "u1" "solve" "2026-10-11").2 =
      [⟨"u1", "solve", "2026-10-11"⟩] ∧
    (checkAndRecordAccess [⟨"u1", "boards", "d"⟩, ⟨"u1", "boards", "d"⟩] "u1" "boards"
        "d").1 = ⟨false, 0⟩ := by
  have hg := (daily_access_check [] "u1" "solve" "2026-10-11").2.1 (by decide)
  have hd := ((daily_access_check [⟨"u1", "boards", "d"⟩, ⟨"u1", "boards", "d"⟩] "u1"
      "boards" "d").2.2.1 (by decide)).1
  refine ⟨?_, ?_, hd⟩
  · rw [hg.1]
    rfl
  · rw [hg.2]
    rfl

end Sudojo
